import Mathlib

/-!
Verification of the synchat cross-platform message relay.

The definitions below are a shallow embedding of
src/lib/cross-platform-messenger.ts, src/lib/can-throw.ts and the
change-feed dispatcher wired up in the application entry points.
Supabase tables are modelled as lists of rows, platform side effects as
explicit state records, and JavaScript truthiness of nullable strings by
the helper jsTruthy.
-/

namespace SynChat

/-- The two chat platforms (database enum platform). -/
inductive Platform where
  | discord
  | telegram
deriving DecidableEq, Repr

/-- Channel direction (database enum channel_direction, the string
values one-way and two-ways). -/
inductive ChannelType where
  | oneWay
  | twoWays
deriving DecidableEq, Repr

/-- JavaScript truthiness of a nullable string: null, undefined and the
empty string are falsy; every other string is truthy. -/
def jsTruthy : Option String → Bool
  | none => false
  | some s => !(s == "")

/-- JavaScript a || b for a nullable string a with default b. -/
def jsOr (a : Option String) (b : String) : String :=
  match a with
  | some s => if s == "" then b else s
  | none => b

/-- Row of the users table. -/
structure UserRow where
  id : String
  username : String
  pfp : Option String
  platform : Platform
deriving DecidableEq, Repr

/-- Row of the channels table. -/
structure ChannelRow where
  id : String
  discord_chat_id : Option String
  telegram_chat_id : Option String
  type : ChannelType
deriving DecidableEq, Repr

/-- Row of the messages table. -/
structure MessageRow where
  id : String
  content : String
  user_id : String
  channel_id : String
  modified_at : Option String
  deleted_at : Option String
deriving DecidableEq, Repr

/-- Row of the message_mappings table. -/
structure MappingRow where
  discord_id : String
  telegram_id : String
deriving DecidableEq, Repr

/-- The persistent store: the four tables the engine reads and writes. -/
structure Db where
  channels : List ChannelRow
  users : List UserRow
  messages : List MessageRow
  message_mappings : List MappingRow
deriving DecidableEq, Repr

/-- The MessagePayload interface carried by change-feed events.  The
realtime row additionally carries deleted_at, which the feed dispatcher
reads when diffing old against new. -/
structure MessagePayload where
  id : String
  content : String
  username : String
  pfp : String
  platform : Platform
  type : ChannelType
  discord_chat_id : Option String
  telegram_chat_id : Option String
  user_id : String
  channel_id : String
  created_at : String
  deleted_at : Option String
deriving DecidableEq, Repr

/-- The IncomingMessage interface built by the inbound listeners. -/
structure IncomingMessage where
  platform : Platform
  chatId : String
  messageId : String
  content : String
  username : String
  userId : String
  pfp : Option String
deriving DecidableEq, Repr

/-- The PlatformMessageEdit interface. -/
structure PlatformMessageEdit where
  platform : Platform
  messageId : String
  newContent : String
  chatId : String
deriving DecidableEq, Repr

/-- The PlatformMessageDelete interface. -/
structure PlatformMessageDelete where
  platform : Platform
  messageId : String
  chatId : String
deriving DecidableEq, Repr

/-- The fields of a grammY message context that the Telegram listener
reads.  The native event also carries the author bot flag
(from.is_bot), recorded here so the listener's treatment of it can be
stated. -/
structure TelegramCtx where
  chat_id : Nat
  message_id : Nat
  text : Option String
  from_username : Option String
  from_first_name : Option String
  from_id : Option Nat
  from_is_bot : Bool
deriving DecidableEq, Repr

/-- The fields of a discord.js messageCreate event that the Discord
listener reads. -/
structure DiscordMessage where
  author_bot : Bool
  author_global_name : Option String
  author_username : String
  author_id : String
  author_avatar_url : String
  channel_id : String
  id : String
  content : String
deriving DecidableEq, Repr

/-- The Telegram message listener registered in initialize.  It returns
some m exactly when it forwards m to processIncomingMessage; it builds
the IncomingMessage from the context and forwards it unconditionally —
the bot flag of the native event is not consulted. -/
def onTelegramMessage (ctx : TelegramCtx) : Option IncomingMessage :=
  some {
    platform := .telegram
    chatId := toString ctx.chat_id
    messageId := toString ctx.message_id
    content := jsOr ctx.text "[Non-text message]"
    username := jsOr ctx.from_username (jsOr ctx.from_first_name "Unknown")
    userId := match ctx.from_id with
              | some n => toString n
              | none => "unknown"
    pfp := none }

/-- The Discord messageCreate listener registered in initialize.  It
returns some m exactly when it forwards m to processIncomingMessage;
events whose author carries the bot flag are dropped. -/
def onDiscordMessageCreate (msg : DiscordMessage) : Option IncomingMessage :=
  if msg.author_bot then none
  else some {
    platform := .discord
    chatId := msg.channel_id
    messageId := msg.id
    content := jsOr (some msg.content) "[Empty message]"
    username := jsOr msg.author_global_name msg.author_username
    userId := msg.author_id
    pfp := some msg.author_avatar_url }

/-- PostgREST .single() on a result set: succeeds exactly when one row
matches, errors (treated by the callers as not-found) otherwise. -/
def listSingle (l : List α) : Option α :=
  match l with
  | [x] => some x
  | _ => none

/-- findMatchingChannel: select from channels where the chat-id column
for the given platform equals chatId, with .single(). -/
def findMatchingChannel (db : Db) (platform : Platform) (chatId : String) :
    Option ChannelRow :=
  listSingle (db.channels.filter fun c =>
    match platform with
    | .discord => c.discord_chat_id == some chatId
    | .telegram => c.telegram_chat_id == some chatId)

/-- Result of upsertUser: the reconciled row (null on failure), the
store afterwards, and the number of store writes performed
(instrumentation for the write-amplification properties). -/
structure UpsertUserResult where
  user : Option UserRow
  db : Db
  writes : Nat
deriving DecidableEq, Repr

/-- upsertUser: fetch from users by id alone with .single() (the query
filters only on the id column); if no row, insert a new user; if one
row, update in place exactly when username or pfp differ; a multi-row
single() error is returned to the caller as null. -/
def upsertUser (db : Db) (m : IncomingMessage) : UpsertUserResult :=
  match db.users.filter (fun u => u.id == m.userId) with
  | [] =>
    let newUser : UserRow :=
      { id := m.userId, username := m.username, pfp := m.pfp, platform := m.platform }
    { user := some newUser
      db := { db with users := db.users ++ [newUser] }
      writes := 1 }
  | [u] =>
    if u.username != m.username || u.pfp != m.pfp then
      { user := some { u with username := m.username, pfp := m.pfp }
        db := { db with users := db.users.map fun w =>
          if w.id == m.userId then { w with username := m.username, pfp := m.pfp } else w }
        writes := 1 }
    else
      { user := some u, db := db, writes := 0 }
  | _ => { user := none, db := db, writes := 0 }

/-- Result of insertMessage: the inserted row (null on conflict or
failure) and the store afterwards. -/
structure InsertMessageResult where
  message : Option MessageRow
  db : Db
deriving DecidableEq, Repr

/-- insertMessage: insert into messages keyed by the native message id
(per spec §3 the native id is the canonical key; the generated schema
file is not part of src).  A duplicate id is a uniqueness conflict: the
insert errors and the function returns null, leaving the table
unchanged. -/
def insertMessage (db : Db) (m : IncomingMessage) (userId channelId : String) :
    InsertMessageResult :=
  if db.messages.any (fun r => r.id == m.messageId) then
    { message := none, db := db }
  else
    let row : MessageRow :=
      { id := m.messageId, content := m.content, user_id := userId,
        channel_id := channelId, modified_at := none, deleted_at := none }
    { message := some row, db := { db with messages := db.messages ++ [row] } }

/-- Outcome of one run of processIncomingMessage: which early return was
taken, or success with the inserted row. -/
inductive IngestOutcome where
  | noChannel
  | userFailure
  | insertFailure
  | success (message : MessageRow)
deriving DecidableEq, Repr

/-- processIncomingMessage: resolve the channel (silent stop when
untracked), reconcile the author, insert the canonical message; each
step short-circuits on failure, and a null from insertMessage is logged
as a failed insert. -/
def processIncomingMessage (db : Db) (m : IncomingMessage) : IngestOutcome × Db :=
  match findMatchingChannel db m.platform m.chatId with
  | none => (.noChannel, db)
  | some channel =>
    let ur := upsertUser db m
    match ur.user with
    | none => (.userFailure, ur.db)
    | some user =>
      let ir := insertMessage ur.db m user.id channel.id
      match ir.message with
      | none => (.insertFailure, ir.db)
      | some msg => (.success msg, ir.db)

end SynChat

namespace SynChat

/-- Claim C1, counterexample: a Telegram message event whose author
carries the native bot flag is still forwarded to
processIncomingMessage by the Telegram listener, so bot-authored create
events are not excluded from re-ingestion on every platform. -/
theorem telegram_listener_ingests_bot_event :
    (onTelegramMessage
      { chat_id := 5, message_id := 9, text := some "hi",
        from_username := some "relaybot", from_first_name := none,
        from_id := some 7, from_is_bot := true }).isSome = true := by
  rfl

/-- Claim C1, amended: only the Discord messageCreate listener excludes
bot-authored create events; the Telegram message listener forwards
every message event to processIncomingMessage regardless of the native
bot flag. -/
theorem bot_exclusion_discord_only (msg : DiscordMessage) (ctx : TelegramCtx)
    (hbot : msg.author_bot = true) :
    onDiscordMessageCreate msg = none ∧ (onTelegramMessage ctx).isSome = true := by
  refine ⟨?_, rfl⟩
  simp [onDiscordMessageCreate, hbot]

/-- Witness for bot_exclusion_discord_only at concrete inputs. -/
theorem bot_exclusion_discord_only_witness :
    onDiscordMessageCreate
      { author_bot := true, author_global_name := none, author_username := "relay",
        author_id := "1", author_avatar_url := "", channel_id := "c",
        id := "m", content := "x" } = none ∧
    (onTelegramMessage
      { chat_id := 1, message_id := 2, text := none, from_username := none,
        from_first_name := none, from_id := none, from_is_bot := true }).isSome = true :=
  bot_exclusion_discord_only _ _ rfl

/-- Claim C6, counterexample: the incoming Telegram author (id 1) has no
stored User with the pair (id 1, platform telegram), yet upsertUser does
not insert a new record: the lookup is keyed by id alone, so it finds
the platform-discord row with the same id and returns it unchanged with
zero writes. -/
theorem upsertUser_lookup_ignores_platform :
    upsertUser
      { channels := [],
        users := [{ id := "1", username := "alice", pfp := none, platform := .discord }],
        messages := [], message_mappings := [] }
      { platform := .telegram, chatId := "c", messageId := "n1", content := "hi",
        username := "alice", userId := "1", pfp := none } =
      { user := some { id := "1", username := "alice", pfp := none, platform := .discord },
        db := { channels := [],
                users := [{ id := "1", username := "alice", pfp := none, platform := .discord }],
                messages := [], message_mappings := [] },
        writes := 0 } ∧
    ¬ ∃ u ∈ [({ id := "1", username := "alice", pfp := none,
                platform := .discord } : UserRow)],
        u.id = "1" ∧ u.platform = Platform.telegram := by
  decide

/-- Claim C6, amended: upsertUser looks the author up by id alone (the
platform is not part of the lookup key); when no row has the id it
inserts a new User, and when exactly one row has it — whatever that
row's platform — it updates in place exactly when username or pfp
differ, otherwise returning the stored row with no store write. -/
theorem upsertUser_keyed_by_id_only (m : IncomingMessage)
    (dbA dbB dbC : Db) (uB uC : UserRow)
    (hA : dbA.users.filter (fun u => u.id == m.userId) = [])
    (hB : dbB.users.filter (fun u => u.id == m.userId) = [uB])
    (hBsame : (uB.username != m.username || uB.pfp != m.pfp) = false)
    (hC : dbC.users.filter (fun u => u.id == m.userId) = [uC])
    (hCdiff : (uC.username != m.username || uC.pfp != m.pfp) = true) :
    upsertUser dbA m =
      { user := some { id := m.userId, username := m.username, pfp := m.pfp,
                       platform := m.platform },
        db := { dbA with users := dbA.users ++
          [{ id := m.userId, username := m.username, pfp := m.pfp,
             platform := m.platform }] },
        writes := 1 } ∧
    upsertUser dbB m = { user := some uB, db := dbB, writes := 0 } ∧
    upsertUser dbC m =
      { user := some { uC with username := m.username, pfp := m.pfp },
        db := { dbC with users := dbC.users.map fun w =>
          if w.id == m.userId then { w with username := m.username, pfp := m.pfp }
          else w },
        writes := 1 } := by
  refine ⟨?_, ?_, ?_⟩
  · unfold upsertUser; rw [hA]
  · unfold upsertUser; rw [hB]; simp [hBsame]
  · unfold upsertUser; rw [hC]; simp [hCdiff]

/-- Witness for upsertUser_keyed_by_id_only at concrete inputs. -/
theorem upsertUser_keyed_by_id_only_witness :
    upsertUser { channels := [], users := [], messages := [], message_mappings := [] }
      { platform := .telegram, chatId := "c", messageId := "n1", content := "hi",
        username := "bob", userId := "7", pfp := none } =
      { user := some { id := "7", username := "bob", pfp := none, platform := .telegram },
        db := { channels := [],
                users := [{ id := "7", username := "bob", pfp := none, platform := .telegram }],
                messages := [], message_mappings := [] },
        writes := 1 } ∧
    upsertUser
      { channels := [],
        users := [{ id := "7", username := "bob", pfp := none, platform := .telegram }],
        messages := [], message_mappings := [] }
      { platform := .telegram, chatId := "c", messageId := "n1", content := "hi",
        username := "bob", userId := "7", pfp := none } =
      { user := some { id := "7", username := "bob", pfp := none, platform := .telegram },
        db := { channels := [],
                users := [{ id := "7", username := "bob", pfp := none, platform := .telegram }],
                messages := [], message_mappings := [] },
        writes := 0 } ∧
    upsertUser
      { channels := [],
        users := [{ id := "7", username := "old", pfp := none, platform := .telegram }],
        messages := [], message_mappings := [] }
      { platform := .telegram, chatId := "c", messageId := "n1", content := "hi",
        username := "bob", userId := "7", pfp := none } =
      { user := some { id := "7", username := "bob", pfp := none, platform := .telegram },
        db := { channels := [],
                users := [{ id := "7", username := "bob", pfp := none, platform := .telegram }],
                messages := [], message_mappings := [] },
        writes := 1 } := by
  have h := upsertUser_keyed_by_id_only
    { platform := .telegram, chatId := "c", messageId := "n1", content := "hi",
      username := "bob", userId := "7", pfp := none }
    { channels := [], users := [], messages := [], message_mappings := [] }
    { channels := [],
      users := [{ id := "7", username := "bob", pfp := none, platform := .telegram }],
      messages := [], message_mappings := [] }
    { channels := [],
      users := [{ id := "7", username := "old", pfp := none, platform := .telegram }],
      messages := [], message_mappings := [] }
    { id := "7", username := "bob", pfp := none, platform := .telegram }
    { id := "7", username := "old", pfp := none, platform := .telegram }
    (by decide) (by decide) (by decide) (by decide) (by decide)
  exact h

/-- Claim C7: reconciling the same incoming author descriptor twice,
starting from a store with no user under that id, performs exactly one
store write on the first call (the insert) and zero on the second,
which returns the same record and leaves the store unchanged. -/
theorem upsertUser_twice_single_write (db : Db) (m : IncomingMessage)
    (h0 : db.users.filter (fun u => u.id == m.userId) = []) :
    (upsertUser db m).writes = 1 ∧
    (upsertUser (upsertUser db m).db m).writes = 0 ∧
    (upsertUser (upsertUser db m).db m).db = (upsertUser db m).db ∧
    (upsertUser (upsertUser db m).db m).user = (upsertUser db m).user := by
  have e1 : upsertUser db m =
      { user := some { id := m.userId, username := m.username, pfp := m.pfp,
                       platform := m.platform },
        db := { db with users := db.users ++
          [{ id := m.userId, username := m.username, pfp := m.pfp,
             platform := m.platform }] },
        writes := 1 } := by
    unfold upsertUser; rw [h0]
  have hf : ({ db with users := db.users ++
      [{ id := m.userId, username := m.username, pfp := m.pfp,
         platform := m.platform }] } : Db).users.filter (fun u => u.id == m.userId) =
      [{ id := m.userId, username := m.username, pfp := m.pfp,
         platform := m.platform }] := by
    simp [List.filter_append, h0]
  have e2 : upsertUser ({ db with users := db.users ++
      [{ id := m.userId, username := m.username, pfp := m.pfp,
         platform := m.platform }] } : Db) m =
      { user := some { id := m.userId, username := m.username, pfp := m.pfp,
                       platform := m.platform },
        db := { db with users := db.users ++
          [{ id := m.userId, username := m.username, pfp := m.pfp,
             platform := m.platform }] },
        writes := 0 } := by
    unfold upsertUser; rw [hf]; simp
  rw [e1]
  rw [e2]
  simp

/-- Witness for upsertUser_twice_single_write at concrete inputs. -/
theorem upsertUser_twice_single_write_witness :
    (upsertUser
      { channels := [], users := [], messages := [], message_mappings := [] }
      { platform := .discord, chatId := "c", messageId := "n1", content := "hi",
        username := "bob", userId := "7", pfp := some "p" }).writes = 1 ∧
    (upsertUser (upsertUser
      { channels := [], users := [], messages := [], message_mappings := [] }
      { platform := .discord, chatId := "c", messageId := "n1", content := "hi",
        username := "bob", userId := "7", pfp := some "p" }).db
      { platform := .discord, chatId := "c", messageId := "n1", content := "hi",
        username := "bob", userId := "7", pfp := some "p" }).writes = 0 := by
  have h := upsertUser_twice_single_write
    { channels := [], users := [], messages := [], message_mappings := [] }
    { platform := .discord, chatId := "c", messageId := "n1", content := "hi",
      username := "bob", userId := "7", pfp := some "p" }
    (by decide)
  exact ⟨h.1, h.2.1⟩

/-- Store with one tracked channel and nothing else, used to exercise
duplicate delivery of a native create event. -/
def dupDb : Db :=
  { channels := [{ id := "c1", discord_chat_id := some "d1",
                   telegram_chat_id := some "t1", type := .twoWays }],
    users := [], messages := [], message_mappings := [] }

/-- A native Telegram create event for the tracked channel of dupDb. -/
def dupMsg : IncomingMessage :=
  { platform := .telegram, chatId := "t1", messageId := "n1", content := "hi",
    username := "al", userId := "u1", pfp := none }

/-- Claim C3, counterexample: re-delivering the same native create event
leaves exactly one canonical Message, but the second delivery is not
treated as success — insertMessage returns null on the uniqueness
conflict and processIncomingMessage takes its failed-insert error
path. -/
theorem duplicate_delivery_reported_as_failure :
    (processIncomingMessage (processIncomingMessage dupDb dupMsg).2 dupMsg).1 =
      .insertFailure ∧
    (processIncomingMessage (processIncomingMessage dupDb dupMsg).2 dupMsg).2.messages.length = 1 := by
  decide

/-- Claim C3, amended: with a tracked channel, a fresh author and no
stored message under the native id, delivering the same native create
event twice produces exactly one canonical Message — the duplicate
insert hits the uniqueness conflict and leaves the messages table
unchanged — but the second delivery's conflict is handled as a failure
(insertMessage returns null and the pipeline reports a failed insert),
not treated as success. -/
theorem ingest_idempotent_but_conflict_is_failure (db : Db) (m : IncomingMessage)
    (channel : ChannelRow)
    (hch : findMatchingChannel db m.platform m.chatId = some channel)
    (hu : db.users.filter (fun u => u.id == m.userId) = [])
    (hm0 : db.messages.countP (fun r => r.id == m.messageId) = 0) :
    (∃ row, (processIncomingMessage db m).1 = .success row) ∧
    (processIncomingMessage (processIncomingMessage db m).2 m).1 = .insertFailure ∧
    (processIncomingMessage (processIncomingMessage db m).2 m).2 =
      (processIncomingMessage db m).2 ∧
    (processIncomingMessage db m).2.messages.countP (fun r => r.id == m.messageId) = 1 := by
  have hany : db.messages.any (fun r => r.id == m.messageId) = false := by
    rw [List.any_eq_false]
    intro x hx
    exact (List.countP_eq_zero.mp hm0) x hx
  have e1 : upsertUser db m =
      { user := some { id := m.userId, username := m.username, pfp := m.pfp,
                       platform := m.platform },
        db := { db with users := db.users ++
          [{ id := m.userId, username := m.username, pfp := m.pfp,
             platform := m.platform }] },
        writes := 1 } := by
    unfold upsertUser; rw [hu]
  have p1 : processIncomingMessage db m =
      (.success
        { id := m.messageId, content := m.content, user_id := m.userId,
          channel_id := channel.id, modified_at := none, deleted_at := none },
       { db with
          users := db.users ++
            [{ id := m.userId, username := m.username, pfp := m.pfp,
               platform := m.platform }],
          messages := db.messages ++
            [{ id := m.messageId, content := m.content, user_id := m.userId,
               channel_id := channel.id, modified_at := none, deleted_at := none }] }) := by
    unfold processIncomingMessage
    rw [hch, e1]
    simp only [insertMessage]
    rw [show ({ db with users := db.users ++
          [{ id := m.userId, username := m.username, pfp := m.pfp,
             platform := m.platform }] } : Db).messages.any
          (fun r => r.id == m.messageId) = false from hany]
    simp
  have hch2 : findMatchingChannel
      (processIncomingMessage db m).2 m.platform m.chatId = some channel := by
    rw [p1]; exact hch
  have hf2 : (processIncomingMessage db m).2.users.filter
      (fun u => u.id == m.userId) =
      [{ id := m.userId, username := m.username, pfp := m.pfp,
         platform := m.platform }] := by
    rw [p1]
    simp [List.filter_append, hu]
  have e2 : upsertUser (processIncomingMessage db m).2 m =
      { user := some { id := m.userId, username := m.username, pfp := m.pfp,
                       platform := m.platform },
        db := (processIncomingMessage db m).2,
        writes := 0 } := by
    unfold upsertUser; rw [hf2]; simp
  have hany2 : (processIncomingMessage db m).2.messages.any
      (fun r => r.id == m.messageId) = true := by
    rw [p1]
    simp [List.any_append]
  have p2 : processIncomingMessage (processIncomingMessage db m).2 m =
      (.insertFailure, (processIncomingMessage db m).2) := by
    conv_lhs => rw [processIncomingMessage]
    rw [hch2, e2]
    simp [insertMessage, hany2]
  refine ⟨⟨_, by rw [p1]⟩, by rw [p2], by rw [p2], ?_⟩
  rw [p1]
  simp [List.countP_append, hm0]

/-- Witness for ingest_idempotent_but_conflict_is_failure at the
concrete store dupDb and event dupMsg. -/
theorem ingest_conflict_failure_witness :
    (∃ row, (processIncomingMessage dupDb dupMsg).1 = .success row) ∧
    (processIncomingMessage (processIncomingMessage dupDb dupMsg).2 dupMsg).1 =
      .insertFailure := by
  have h := ingest_idempotent_but_conflict_is_failure dupDb dupMsg
    { id := "c1", discord_chat_id := some "d1",
      telegram_chat_id := some "t1", type := .twoWays }
    (by decide) (by decide) (by decide)
  exact ⟨h.1, h.2.1⟩

/-- Replace every occurrence of the character c in a character list by
the list r (JavaScript String.replace with a global single-character
pattern, at the level of character lists). -/
def replaceCharL (c : Char) (r : List Char) (l : List Char) : List Char :=
  (l.map fun x => if x = c then r else [x]).flatten

/-- escapeHtmlForTelegram on character lists: replace the ampersand
first, then the two angle brackets. -/
def escapeHtmlForTelegramL (l : List Char) : List Char :=
  replaceCharL '>' "&gt;".data (replaceCharL '<' "&lt;".data
    (replaceCharL '&' "&amp;".data l))

/-- escapeHtmlForTelegram: the conservative HTML escaping used for all
Telegram-bound user text. -/
def escapeHtmlForTelegram (text : String) : String :=
  ⟨escapeHtmlForTelegramL text.data⟩

/-- formatMessageForTelegram: platform and direction badges, the author
in a bold tag, then the content; username and content pass through
escapeHtmlForTelegram. -/
def formatMessageForTelegram (payload : MessagePayload) : String :=
  let platformEmoji := match payload.platform with
    | .discord => "🔷"
    | .telegram => "📱"
  let typeEmoji := match payload.type with
    | .twoWays => "↔️"
    | .oneWay => "➡️"
  platformEmoji ++ " " ++ typeEmoji ++ " <b>" ++
    escapeHtmlForTelegram payload.username ++ "</b>\n" ++
    escapeHtmlForTelegram payload.content

/-- formatMessageForDiscord: platform and direction badges, the author
in double asterisks, then the content; username and content are
interpolated directly. -/
def formatMessageForDiscord (payload : MessagePayload) : String :=
  let platformEmoji := match payload.platform with
    | .telegram => "📱"
    | .discord => "🔷"
  let typeEmoji := match payload.type with
    | .twoWays => "↔️"
    | .oneWay => "➡️"
  platformEmoji ++ " " ++ typeEmoji ++ " **" ++ payload.username ++ "**\n" ++
    payload.content

/-- formatEditedMessageForTelegram, used when propagating an edit to a
Telegram counterpart. -/
def formatEditedMessageForTelegram (username content : String)
    (originalPlatform : Platform) (channelType : ChannelType) : String :=
  let platformEmoji := match originalPlatform with
    | .discord => "🔷"
    | .telegram => "📱"
  let typeEmoji := match channelType with
    | .twoWays => "↔️"
    | .oneWay => "➡️"
  platformEmoji ++ " " ++ typeEmoji ++ " <b>" ++
    escapeHtmlForTelegram username ++ "</b>\n" ++
    escapeHtmlForTelegram content

/-- formatEditedMessageForDiscord, used when propagating an edit to a
Discord counterpart. -/
def formatEditedMessageForDiscord (username content : String)
    (originalPlatform : Platform) (channelType : ChannelType) : String :=
  let platformEmoji := match originalPlatform with
    | .telegram => "📱"
    | .discord => "🔷"
  let typeEmoji := match channelType with
    | .twoWays => "↔️"
    | .oneWay => "➡️"
  platformEmoji ++ " " ++ typeEmoji ++ " **" ++ username ++ "**\n" ++ content

/-- Number of occurrences of a character in a string. -/
def countChar (c : Char) (s : String) : Nat :=
  s.data.count c

/-- Characters of a replaceCharL result come from the replacement list
or are characters of the input other than the replaced one. -/
theorem mem_replaceCharL {x c : Char} {r l : List Char}
    (hx : x ∈ replaceCharL c r l) : x ∈ r ∨ (x ∈ l ∧ x ≠ c) := by
  simp only [replaceCharL, List.mem_flatten, List.mem_map] at hx
  obtain ⟨piece, ⟨y, hy, rfl⟩, hxp⟩ := hx
  by_cases h : y = c
  · rw [if_pos h] at hxp
    exact Or.inl hxp
  · rw [if_neg h] at hxp
    rcases List.mem_singleton.mp hxp with rfl
    exact Or.inr ⟨hy, h⟩

/-- A character absent from the replacement list stays absent when it is
the replaced character, and is not introduced otherwise. -/
theorem not_mem_replaceCharL {x c : Char} {r l : List Char}
    (hr : x ∉ r) (hl : x = c ∨ x ∉ l) : x ∉ replaceCharL c r l := by
  intro hx
  rcases mem_replaceCharL hx with h | ⟨hmem, hne⟩
  · exact hr h
  · rcases hl with rfl | h
    · exact hne rfl
    · exact h hmem

/-- Neither angle bracket survives escapeHtmlForTelegramL. -/
theorem escape_no_angleL (l : List Char) :
    '<' ∉ escapeHtmlForTelegramL l ∧ '>' ∉ escapeHtmlForTelegramL l := by
  unfold escapeHtmlForTelegramL
  constructor
  · exact not_mem_replaceCharL (by decide)
      (Or.inr (not_mem_replaceCharL (by decide) (Or.inl rfl)))
  · exact not_mem_replaceCharL (by decide) (Or.inl rfl)

/-- countChar distributes over string append. -/
theorem countChar_append (c : Char) (a b : String) :
    countChar c (a ++ b) = countChar c a + countChar c b := by
  simp [countChar, String.data_append, List.count_append]

/-- escapeHtmlForTelegram output contains no opening angle bracket. -/
theorem countChar_escape_lt (s : String) :
    countChar '<' (escapeHtmlForTelegram s) = 0 :=
  List.count_eq_zero.mpr (escape_no_angleL s.data).1

/-- escapeHtmlForTelegram output contains no closing angle bracket. -/
theorem countChar_escape_gt (s : String) :
    countChar '>' (escapeHtmlForTelegram s) = 0 :=
  List.count_eq_zero.mpr (escape_no_angleL s.data).2

/-- Claim C9, counterexample: the Discord formatting path performs no
markdown escaping — a message whose user-supplied content is the
markdown control sequence double-asterisk is interpolated verbatim, so
the output reinterprets the user content as bold formatting. -/
theorem discord_format_injects_markup :
    formatMessageForDiscord
      { id := "m1", content := "**injected**", username := "user", pfp := "",
        platform := .telegram, type := .twoWays, discord_chat_id := none,
        telegram_chat_id := none, user_id := "u1", channel_id := "c1",
        created_at := "t0", deleted_at := none } =
      "📱 ↔️ **user**\n**injected**" := by
  rfl

/-- Claim C9, amended: the formatters are pure functions of their
payload; the Telegram (HTML) path escapes the angle brackets in the
user-supplied username and content — every Telegram-formatted message
contains exactly the two angle-bracket pairs of the fixed bold tag,
whatever the user text — while the Discord (Markdown) path interpolates
username and content verbatim with no escaping. -/
theorem formatter_escaping_status (p : MessagePayload) (s : String) :
    ('<' ∉ (escapeHtmlForTelegram s).data ∧ '>' ∉ (escapeHtmlForTelegram s).data) ∧
    (countChar '<' (formatMessageForTelegram p) = 2 ∧
     countChar '>' (formatMessageForTelegram p) = 2) ∧
    formatMessageForDiscord p =
      (match p.platform with | .telegram => "📱" | .discord => "🔷") ++ " " ++
      (match p.type with | .twoWays => "↔️" | .oneWay => "➡️") ++ " **" ++
      p.username ++ "**\n" ++ p.content := by
  refine ⟨escape_no_angleL s.data, ⟨?_, ?_⟩, rfl⟩
  · cases hp : p.platform <;> cases ht : p.type <;>
      simp [formatMessageForTelegram, hp, ht, countChar_append,
        countChar_escape_lt, countChar_escape_gt] <;> decide
  · cases hp : p.platform <;> cases ht : p.type <;>
      simp [formatMessageForTelegram, hp, ht, countChar_append,
        countChar_escape_lt, countChar_escape_gt] <;> decide

/-- The platform opposite to a given one. -/
def Platform.other : Platform → Platform
  | .discord => .telegram
  | .telegram => .discord

/-- One message living on a platform: its chat, its native id and its
current text. -/
structure PlatformMsg where
  chatId : String
  msgId : String
  text : String
deriving DecidableEq, Repr

/-- The observable platform side effects: the messages currently
existing on each platform. -/
structure PlatState where
  telegramMsgs : List PlatformMsg
  discordMsgs : List PlatformMsg
deriving DecidableEq, Repr

/-- Messages of one platform inside a PlatState. -/
def PlatState.get (st : PlatState) : Platform → List PlatformMsg
  | .telegram => st.telegramMsgs
  | .discord => st.discordMsgs

/-- Environment of the relay: which bot singletons are initialized,
whether the outbound api calls succeed, whether a Discord channel fetch
yields a text channel, and the native ids the destination platforms
assign to newly sent messages. -/
structure RelayEnv where
  telegramReady : Bool
  discordReady : Bool
  discordTextChannel : String → Bool
  telegramApiOk : Bool
  discordApiOk : Bool
  newTelegramId : String
  newDiscordId : String

/-- The native id a RelayEnv assigns on the given destination. -/
def RelayEnv.newIdOn (env : RelayEnv) : Platform → String
  | .telegram => env.newTelegramId
  | .discord => env.newDiscordId

/-- The mapping column holding the native id for the given platform. -/
def MappingRow.idOn (r : MappingRow) : Platform → String
  | .discord => r.discord_id
  | .telegram => r.telegram_id

/-- The chat-id field of a payload for the given platform. -/
def MessagePayload.chatOn (p : MessagePayload) : Platform → Option String
  | .discord => p.discord_chat_id
  | .telegram => p.telegram_chat_id

/-- The chat-id field of a channel row for the given platform. -/
def ChannelRow.chatOn (c : ChannelRow) : Platform → Option String
  | .discord => c.discord_chat_id
  | .telegram => c.telegram_chat_id

/-- The create formatter for the given destination platform. -/
def formatFor : Platform → MessagePayload → String
  | .telegram, p => formatMessageForTelegram p
  | .discord, p => formatMessageForDiscord p

/-- createMessageMapping: place the original id in the column of the
originating platform and the forwarded id in the other column, then
upsert.  The conflict target is the primary key of message_mappings,
whose generated schema file is not part of src; following spec §3 the
upsert is keyed by an id column, modelled here as discord_id. -/
def createMessageMapping (db : Db) (originalMessageId forwardedMessageId : String)
    (originalPlatform : Platform) : Db :=
  let mappingData : MappingRow :=
    match originalPlatform with
    | .discord => { discord_id := originalMessageId, telegram_id := forwardedMessageId }
    | .telegram => { discord_id := forwardedMessageId, telegram_id := originalMessageId }
  if db.message_mappings.any (fun r => r.discord_id == mappingData.discord_id) then
    { db with message_mappings := db.message_mappings.map fun r =>
        if r.discord_id == mappingData.discord_id then mappingData else r }
  else
    { db with message_mappings := db.message_mappings ++ [mappingData] }

/-- sendToTelegram: no-op when the bot is not initialized or the payload
has no truthy telegram chat id; otherwise send the formatted message
(a thrown api error is caught and leaves no state change) and record
the mapping. -/
def sendToTelegram (env : RelayEnv) (db : Db) (st : PlatState)
    (payload : MessagePayload) : Db × PlatState :=
  if !env.telegramReady || !jsTruthy payload.telegram_chat_id then (db, st)
  else if !env.telegramApiOk then (db, st)
  else
    let chatId := payload.telegram_chat_id.getD ""
    let text := formatMessageForTelegram payload
    (createMessageMapping db payload.id env.newTelegramId payload.platform,
     { st with telegramMsgs := st.telegramMsgs ++
        [{ chatId := chatId, msgId := env.newTelegramId, text := text }] })

/-- sendToDiscord: no-op when the bot is not initialized, the payload
has no truthy discord chat id, or the fetched channel is missing or not
text-based; otherwise send the formatted message (a thrown api error is
caught) and record the mapping. -/
def sendToDiscord (env : RelayEnv) (db : Db) (st : PlatState)
    (payload : MessagePayload) : Db × PlatState :=
  if !env.discordReady || !jsTruthy payload.discord_chat_id then (db, st)
  else
    let chatId := payload.discord_chat_id.getD ""
    if !env.discordTextChannel chatId then (db, st)
    else if !env.discordApiOk then (db, st)
    else
      let text := formatMessageForDiscord payload
      (createMessageMapping db payload.id env.newDiscordId payload.platform,
       { st with discordMsgs := st.discordMsgs ++
          [{ chatId := chatId, msgId := env.newDiscordId, text := text }] })

/-- handleMessage: the relay direction policy for a Message-created
change-feed event.  Two-way channels relay to the platform that did not
originate the payload; one-way channels relay only Telegram-origin
payloads, and a one-way Discord-origin create is ignored. -/
def handleMessage (env : RelayEnv) (isReady : Bool) (db : Db) (st : PlatState)
    (payload : MessagePayload) : Db × PlatState :=
  if !isReady then (db, st)
  else
    match payload.type, payload.platform with
    | .twoWays, .discord => sendToTelegram env db st payload
    | .twoWays, .telegram => sendToDiscord env db st payload
    | .oneWay, .telegram => sendToDiscord env db st payload
    | .oneWay, .discord => (db, st)

/-- Claim C2: on a two-way channel a create is relayed to exactly the
platform that did not originate it; on a one-way channel a
Telegram-origin create is relayed to Discord and a Discord-origin
create produces zero relayed messages. -/
theorem handleMessage_direction_policy (env : RelayEnv) (db : Db) (st : PlatState)
    (p2w p1t p1d : MessagePayload)
    (htr : env.telegramReady = true) (hdr : env.discordReady = true)
    (htc : ∀ c, env.discordTextChannel c = true)
    (hta : env.telegramApiOk = true) (hda : env.discordApiOk = true)
    (h2w : p2w.type = .twoWays)
    (h2chat : jsTruthy (p2w.chatOn p2w.platform.other) = true)
    (h1tt : p1t.type = .oneWay) (h1tp : p1t.platform = .telegram)
    (h1chat : jsTruthy p1t.discord_chat_id = true)
    (h1dt : p1d.type = .oneWay) (h1dp : p1d.platform = .discord) :
    ((handleMessage env true db st p2w).2.get p2w.platform.other =
        st.get p2w.platform.other ++
          [{ chatId := (p2w.chatOn p2w.platform.other).getD "",
             msgId := env.newIdOn p2w.platform.other,
             text := formatFor p2w.platform.other p2w }] ∧
      (handleMessage env true db st p2w).2.get p2w.platform = st.get p2w.platform) ∧
    ((handleMessage env true db st p1t).2.discordMsgs =
        st.discordMsgs ++
          [{ chatId := p1t.discord_chat_id.getD "",
             msgId := env.newDiscordId,
             text := formatMessageForDiscord p1t }] ∧
      (handleMessage env true db st p1t).2.telegramMsgs = st.telegramMsgs) ∧
    handleMessage env true db st p1d = (db, st) := by
  refine ⟨?_, ?_, ?_⟩
  · cases hp : p2w.platform <;>
      · rw [hp] at h2chat
        simp only [Platform.other, MessagePayload.chatOn] at h2chat
        constructor <;>
          simp [handleMessage, sendToTelegram, sendToDiscord, h2w, hp,
            Platform.other, PlatState.get, MessagePayload.chatOn,
            RelayEnv.newIdOn, formatFor, htr, hdr, htc, hta, hda, h2chat]
  · constructor <;>
      simp [handleMessage, sendToDiscord, h1tt, h1tp, PlatState.get,
        hdr, htc, hda, h1chat]
  · simp [handleMessage, h1dt, h1dp]

/-- Relay environment with both bots initialized and succeeding apis,
used by the direction-policy witness. -/
def envW : RelayEnv :=
  { telegramReady := true, discordReady := true,
    discordTextChannel := fun _ => true, telegramApiOk := true,
    discordApiOk := true, newTelegramId := "tg9", newDiscordId := "dc9" }

/-- Empty store used by the direction-policy witness. -/
def dbW : Db :=
  { channels := [], users := [], messages := [], message_mappings := [] }

/-- Empty platform state used by the direction-policy witness. -/
def stW : PlatState := { telegramMsgs := [], discordMsgs := [] }

/-- Two-way Discord-origin payload used by the direction-policy witness. -/
def p2wW : MessagePayload :=
  { id := "a1", content := "hi", username := "u", pfp := "",
    platform := .discord, type := .twoWays,
    discord_chat_id := some "d1", telegram_chat_id := some "t1",
    user_id := "u1", channel_id := "c1", created_at := "t0",
    deleted_at := none }

/-- One-way Telegram-origin payload used by the direction-policy witness. -/
def p1tW : MessagePayload :=
  { p2wW with id := "a3", platform := .telegram, type := .oneWay }

/-- One-way Discord-origin payload used by the direction-policy witness. -/
def p1dW : MessagePayload :=
  { p2wW with id := "a2", platform := .discord, type := .oneWay }

/-- Witness for handleMessage_direction_policy at concrete inputs. -/
theorem handleMessage_direction_policy_witness :
    ((handleMessage envW true dbW stW p2wW).2.get p2wW.platform.other =
        stW.get p2wW.platform.other ++
          [{ chatId := (p2wW.chatOn p2wW.platform.other).getD "",
             msgId := envW.newIdOn p2wW.platform.other,
             text := formatFor p2wW.platform.other p2wW }] ∧
      (handleMessage envW true dbW stW p2wW).2.get p2wW.platform =
        stW.get p2wW.platform) ∧
    ((handleMessage envW true dbW stW p1tW).2.discordMsgs =
        stW.discordMsgs ++
          [{ chatId := p1tW.discord_chat_id.getD "",
             msgId := envW.newDiscordId,
             text := formatMessageForDiscord p1tW }] ∧
      (handleMessage envW true dbW stW p1tW).2.telegramMsgs = stW.telegramMsgs) ∧
    handleMessage envW true dbW stW p1dW = (dbW, stW) :=
  handleMessage_direction_policy envW dbW stW p2wW p1tW p1dW
    rfl rfl (fun _ => rfl) rfl rfl rfl (by decide) rfl rfl (by decide) rfl rfl

/-- Whether a platform message with the given chat and native id exists
(a platform api fetch or edit of a missing message throws, which the
callers catch as a no-op). -/
def pmsgPresent (l : List PlatformMsg) (chatId msgId : String) : Bool :=
  l.any fun m => m.chatId == chatId && m.msgId == msgId

/-- Replace the text of the platform message with the given chat and
native id. -/
def pmsgEdit (l : List PlatformMsg) (chatId msgId newText : String) :
    List PlatformMsg :=
  l.map fun m =>
    if m.chatId == chatId && m.msgId == msgId then { m with text := newText } else m

/-- Remove the platform message with the given chat and native id. -/
def pmsgDelete (l : List PlatformMsg) (chatId msgId : String) : List PlatformMsg :=
  l.filter fun m => !(m.chatId == chatId && m.msgId == msgId)

/-- editTelegramMessage: no-op when the bot is missing; an api error on
a missing message is caught, so only an existing message is changed. -/
def editTelegramMessage (env : RelayEnv) (st : PlatState)
    (messageId newContent chatId : String) : PlatState :=
  if !env.telegramReady then st
  else if pmsgPresent st.telegramMsgs chatId messageId then
    { st with telegramMsgs := pmsgEdit st.telegramMsgs chatId messageId newContent }
  else st

/-- editDiscordMessage: no-op when the bot is missing or the channel
fetch fails or is not text-based; a fetch of a missing message throws
and is caught. -/
def editDiscordMessage (env : RelayEnv) (st : PlatState)
    (messageId newContent chatId : String) : PlatState :=
  if !env.discordReady then st
  else if !env.discordTextChannel chatId then st
  else if pmsgPresent st.discordMsgs chatId messageId then
    { st with discordMsgs := pmsgEdit st.discordMsgs chatId messageId newContent }
  else st

/-- deleteTelegramMessage: api deletion of an existing message; a thrown
error (already-deleted message) is caught as a no-op. -/
def deleteTelegramMessage (env : RelayEnv) (st : PlatState)
    (messageId chatId : String) : PlatState :=
  if !env.telegramReady then st
  else if pmsgPresent st.telegramMsgs chatId messageId then
    { st with telegramMsgs := pmsgDelete st.telegramMsgs chatId messageId }
  else st

/-- deleteDiscordMessage: fetch the channel and the message, then delete
it; any thrown error (missing channel or already-deleted message) is
caught as a no-op. -/
def deleteDiscordMessage (env : RelayEnv) (st : PlatState)
    (messageId chatId : String) : PlatState :=
  if !env.discordReady then st
  else if !env.discordTextChannel chatId then st
  else if pmsgPresent st.discordMsgs chatId messageId then
    { st with discordMsgs := pmsgDelete st.discordMsgs chatId messageId }
  else st

/-- The select of a message joined with its channel and author
(channels!inner, users!inner) by canonical id with .single(): all three
rows must resolve or the fetch errors and the caller no-ops. -/
def lookupMessageJoin (db : Db) (id : String) :
    Option (MessageRow × ChannelRow × UserRow) :=
  match listSingle (db.messages.filter fun m => m.id == id) with
  | none => none
  | some msg =>
    match db.channels.find? (fun c => c.id == msg.channel_id),
          db.users.find? (fun u => u.id == msg.user_id) with
    | some channel, some user => some (msg, channel, user)
    | _, _ => none

/-- The message_mappings lookup used by the update and deletion
handlers: a single row whose discord_id or telegram_id equals the
canonical id. -/
def lookupMapping (db : Db) (id : String) : Option MappingRow :=
  listSingle (db.message_mappings.filter fun r =>
    r.discord_id == id || r.telegram_id == id)

/-- The edited-message formatter for the given destination platform. -/
def formatEditedFor : Platform → String → String → Platform → ChannelType → String
  | .discord, username, content, originalPlatform, channelType =>
    formatEditedMessageForDiscord username content originalPlatform channelType
  | .telegram, username, content, originalPlatform, channelType =>
    formatEditedMessageForTelegram username content originalPlatform channelType

/-- handleMessageUpdate: look up the stored message with its channel and
author, then the message mapping; if either lookup fails, no-op.
Otherwise edit the counterpart message on the platform opposite to the
author's, with the mapping's id for that platform and the origin
platform taken from the author row. -/
def handleMessageUpdate (env : RelayEnv) (isReady : Bool) (db : Db)
    (newPayload oldPayload : MessagePayload) (st : PlatState) : PlatState :=
  if !isReady then st
  else
    match lookupMessageJoin db newPayload.id with
    | none => st
    | some (_msg, channel, user) =>
      match lookupMapping db newPayload.id with
      | none => st
      | some mapping =>
        match user.platform with
        | .telegram =>
          if jsTruthy channel.discord_chat_id then
            editDiscordMessage env st mapping.discord_id
              (formatEditedMessageForDiscord user.username newPayload.content
                user.platform channel.type)
              (channel.discord_chat_id.getD "")
          else st
        | .discord =>
          if jsTruthy channel.telegram_chat_id then
            editTelegramMessage env st mapping.telegram_id
              (formatEditedMessageForTelegram user.username newPayload.content
                user.platform channel.type)
              (channel.telegram_chat_id.getD "")
          else st

/-- handleMessageDeletion: look up the message mapping for the deleted
payload's canonical id; if absent, no-op; otherwise delete the
counterpart native message on the platform opposite to the payload's;
the mapping row itself is never written. -/
def handleMessageDeletion (env : RelayEnv) (isReady : Bool) (db : Db)
    (deletedPayload : MessagePayload) (st : PlatState) : PlatState :=
  if !isReady then st
  else
    match lookupMapping db deletedPayload.id with
    | none => st
    | some mapping =>
      match deletedPayload.platform with
      | .telegram =>
        if jsTruthy deletedPayload.discord_chat_id then
          deleteDiscordMessage env st mapping.discord_id
            (deletedPayload.discord_chat_id.getD "")
        else st
      | .discord =>
        if jsTruthy deletedPayload.telegram_chat_id then
          deleteTelegramMessage env st mapping.telegram_id
            (deletedPayload.telegram_chat_id.getD "")
        else st

/-- The change-feed UPDATE dispatcher: an update whose new row has
deleted_at set while the old row does not is routed to
handleMessageDeletion, every other update to handleMessageUpdate. -/
def processFeedUpdate (env : RelayEnv) (isReady : Bool) (db : Db)
    (newP oldP : MessagePayload) (st : PlatState) : PlatState :=
  if jsTruthy newP.deleted_at && !jsTruthy oldP.deleted_at then
    handleMessageDeletion env isReady db newP st
  else
    handleMessageUpdate env isReady db newP oldP st

/-- After pmsgDelete, the deleted message is no longer present, so a
repeated delete attempt finds nothing. -/
theorem pmsgPresent_after_delete (l : List PlatformMsg) (c i : String) :
    pmsgPresent (pmsgDelete l c i) c i = false := by
  simp only [pmsgPresent, pmsgDelete, List.any_eq_false, List.mem_filter]
  intro m hm
  exact fun hp => by simp [hp] at hm

/-- Counting matches and non-matches partitions a list. -/
theorem countP_not_add (p : α → Bool) (l : List α) :
    l.countP p + l.countP (fun a => !p a) = l.length := by
  induction l with
  | nil => rfl
  | cons x xs ih =>
    by_cases h : p x <;>
      simp [List.countP_cons, h, Nat.add_comm, Nat.add_assoc, Nat.add_left_comm, ← ih]

/-- Deleting the unique matching message shortens the list by one. -/
theorem pmsgDelete_length (l : List PlatformMsg) (c i : String)
    (h : l.countP (fun m => m.chatId == c && m.msgId == i) = 1) :
    (pmsgDelete l c i).length + 1 = l.length := by
  have hsplit := countP_not_add (fun m => m.chatId == c && m.msgId == i) l
  have hlen : (pmsgDelete l c i).length =
      l.countP (fun m => !(m.chatId == c && m.msgId == i)) := by
    simp [pmsgDelete, ← List.countP_eq_length_filter]
  omega

/-- A positive match count means the message is present. -/
theorem pmsgPresent_of_countP_one (l : List PlatformMsg) (c i : String)
    (h : l.countP (fun m => m.chatId == c && m.msgId == i) = 1) :
    pmsgPresent l c i = true := by
  have : 0 < l.countP (fun m => m.chatId == c && m.msgId == i) := by omega
  obtain ⟨a, ha, hp⟩ := List.countP_pos_iff.mp this
  simp only [pmsgPresent, List.any_eq_true]
  exact ⟨a, ha, hp⟩

/-- Claim C4: a Message-updated event with no mapping for its canonical
id is a no-op, and with a mapping the handler edits exactly the
counterpart message — the mapping's native id on the platform opposite
to the author's platform — while the author's own platform (where the
original message lives) is untouched. -/
theorem handleMessageUpdate_edits_counterpart (env : RelayEnv)
    (db db2 : Db) (newPayload oldPayload : MessagePayload) (st : PlatState)
    (msg : MessageRow) (channel : ChannelRow) (user : UserRow) (mapping : MappingRow)
    (hnone : lookupMapping db2 newPayload.id = none)
    (hj : lookupMessageJoin db newPayload.id = some (msg, channel, user))
    (hm : lookupMapping db newPayload.id = some mapping)
    (htr : env.telegramReady = true) (hdr : env.discordReady = true)
    (htc : ∀ c, env.discordTextChannel c = true)
    (hchat : jsTruthy (channel.chatOn user.platform.other) = true)
    (hpres : pmsgPresent (st.get user.platform.other)
      ((channel.chatOn user.platform.other).getD "")
      (mapping.idOn user.platform.other) = true) :
    handleMessageUpdate env true db2 newPayload oldPayload st = st ∧
    (handleMessageUpdate env true db newPayload oldPayload st).get
        user.platform.other =
      pmsgEdit (st.get user.platform.other)
        ((channel.chatOn user.platform.other).getD "")
        (mapping.idOn user.platform.other)
        (formatEditedFor user.platform.other user.username newPayload.content
          user.platform channel.type) ∧
    (handleMessageUpdate env true db newPayload oldPayload st).get user.platform =
      st.get user.platform := by
  refine ⟨?_, ?_, ?_⟩
  · cases hjj : lookupMessageJoin db2 newPayload.id with
    | none => simp [handleMessageUpdate, hjj]
    | some trip =>
      obtain ⟨m2, c2, u2⟩ := trip
      simp [handleMessageUpdate, hjj, hnone]
  · cases hup : user.platform <;>
      · rw [hup] at hchat hpres
        simp only [Platform.other, ChannelRow.chatOn, MappingRow.idOn,
          PlatState.get] at hchat hpres
        simp [handleMessageUpdate, hj, hm, hup, Platform.other,
          ChannelRow.chatOn, MappingRow.idOn, PlatState.get, formatEditedFor,
          editDiscordMessage, editTelegramMessage, htr, hdr, htc, hchat, hpres]
  · cases hup : user.platform <;>
      · rw [hup] at hchat hpres
        simp only [Platform.other, ChannelRow.chatOn, MappingRow.idOn,
          PlatState.get] at hchat hpres
        simp [handleMessageUpdate, hj, hm, hup, Platform.other,
          ChannelRow.chatOn, MappingRow.idOn, PlatState.get, formatEditedFor,
          editDiscordMessage, editTelegramMessage, htr, hdr, htc, hchat, hpres]

/-- Store used by the update-propagation witness: one Telegram-origin
message on a two-way channel with a mapping to its Discord copy. -/
def updDb : Db :=
  { channels := [{ id := "c1", discord_chat_id := some "d1",
                   telegram_chat_id := some "t1", type := .twoWays }],
    users := [{ id := "u1", username := "al", pfp := none, platform := .telegram }],
    messages := [{ id := "n1", content := "hi", user_id := "u1",
                   channel_id := "c1", modified_at := none, deleted_at := none }],
    message_mappings := [{ discord_id := "dc5", telegram_id := "n1" }] }

/-- Change-feed payload for the stored message of updDb. -/
def updPayload : MessagePayload :=
  { id := "n1", content := "hi there", username := "al", pfp := "",
    platform := .telegram, type := .twoWays, discord_chat_id := some "d1",
    telegram_chat_id := some "t1", user_id := "u1", channel_id := "c1",
    created_at := "t0", deleted_at := none }

/-- Platform state used by the update-propagation witness: the Discord
copy exists. -/
def updSt : PlatState :=
  { telegramMsgs := [{ chatId := "t1", msgId := "n1", text := "hi" }],
    discordMsgs := [{ chatId := "d1", msgId := "dc5", text := "old" }] }

/-- Witness for handleMessageUpdate_edits_counterpart at concrete
inputs. -/
theorem handleMessageUpdate_edits_counterpart_witness :
    handleMessageUpdate envW true dbW updPayload updPayload updSt = updSt ∧
    (handleMessageUpdate envW true updDb updPayload updPayload updSt).get
        Platform.telegram.other =
      pmsgEdit (updSt.get Platform.telegram.other) "d1" "dc5"
        (formatEditedFor Platform.telegram.other "al" "hi there"
          Platform.telegram ChannelType.twoWays) ∧
    (handleMessageUpdate envW true updDb updPayload updPayload updSt).get
        Platform.telegram =
      updSt.get Platform.telegram := by
  have h := handleMessageUpdate_edits_counterpart envW updDb dbW
    updPayload updPayload updSt
    { id := "n1", content := "hi", user_id := "u1", channel_id := "c1",
      modified_at := none, deleted_at := none }
    { id := "c1", discord_chat_id := some "d1", telegram_chat_id := some "t1",
      type := .twoWays }
    { id := "u1", username := "al", pfp := none, platform := .telegram }
    { discord_id := "dc5", telegram_id := "n1" }
    (by decide) (by decide) (by decide) rfl rfl (fun _ => rfl)
    (by decide) (by decide)
  exact h

/-- Claim C5: a change-feed update representing a soft-delete transition
(deleted_at newly set) is routed to the delete propagator, which, given
an existing mapping, deletes exactly the counterpart native message on
the opposite platform once (the destination loses exactly the one
matching message and the origin platform is untouched), performs no
write to the mapping (the lookup in the unchanged store still resolves
it), and redelivering the same transition event is an error-free
no-op. -/
theorem softDelete_propagates_once_and_retry_noop (env : RelayEnv) (db : Db)
    (newP oldP : MessagePayload) (st : PlatState) (mapping : MappingRow)
    (htr : env.telegramReady = true) (hdr : env.discordReady = true)
    (htc : ∀ c, env.discordTextChannel c = true)
    (hdel : jsTruthy newP.deleted_at = true)
    (hold : jsTruthy oldP.deleted_at = false)
    (hm : lookupMapping db newP.id = some mapping)
    (hchat : jsTruthy (newP.chatOn newP.platform.other) = true)
    (hcount : (st.get newP.platform.other).countP
        (fun m => m.chatId == (newP.chatOn newP.platform.other).getD "" &&
                  m.msgId == mapping.idOn newP.platform.other) = 1) :
    (processFeedUpdate env true db newP oldP st).get newP.platform.other =
      pmsgDelete (st.get newP.platform.other)
        ((newP.chatOn newP.platform.other).getD "")
        (mapping.idOn newP.platform.other) ∧
    (processFeedUpdate env true db newP oldP st).get newP.platform =
      st.get newP.platform ∧
    ((processFeedUpdate env true db newP oldP st).get newP.platform.other).length
        + 1 =
      (st.get newP.platform.other).length ∧
    lookupMapping db newP.id = some mapping ∧
    processFeedUpdate env true db newP oldP
        (processFeedUpdate env true db newP oldP st) =
      processFeedUpdate env true db newP oldP st := by
  have hpres := pmsgPresent_of_countP_one _ _ _ hcount
  have hroute : ∀ s : PlatState, processFeedUpdate env true db newP oldP s =
      handleMessageDeletion env true db newP s := by
    intro s
    simp [processFeedUpdate, hdel, hold]
  cases hup : newP.platform with
  | telegram =>
    rw [hup] at hchat hpres hcount
    simp only [Platform.other, MessagePayload.chatOn, MappingRow.idOn,
      PlatState.get] at hchat hpres hcount
    have hdelst : handleMessageDeletion env true db newP st =
        { st with
            discordMsgs := pmsgDelete st.discordMsgs
              (newP.discord_chat_id.getD "") mapping.discord_id } := by
      simp [handleMessageDeletion, hm, hup, deleteDiscordMessage,
        hdr, htc, hchat, hpres]
    have hretry : handleMessageDeletion env true db newP
        ({ st with
            discordMsgs := pmsgDelete st.discordMsgs
              (newP.discord_chat_id.getD "") mapping.discord_id } : PlatState) =
        { st with
            discordMsgs := pmsgDelete st.discordMsgs
              (newP.discord_chat_id.getD "") mapping.discord_id } := by
      simp [handleMessageDeletion, hm, hup, deleteDiscordMessage,
        hdr, htc, hchat, pmsgPresent_after_delete]
    refine ⟨?_, ?_, ?_, hm, ?_⟩ <;>
      simp [hroute, hdelst, hretry, hup, Platform.other,
        MessagePayload.chatOn, MappingRow.idOn, PlatState.get,
        pmsgDelete_length _ _ _ hcount]
  | discord =>
    rw [hup] at hchat hpres hcount
    simp only [Platform.other, MessagePayload.chatOn, MappingRow.idOn,
      PlatState.get] at hchat hpres hcount
    have hdelst : handleMessageDeletion env true db newP st =
        { st with
            telegramMsgs := pmsgDelete st.telegramMsgs
              (newP.telegram_chat_id.getD "") mapping.telegram_id } := by
      simp [handleMessageDeletion, hm, hup, deleteTelegramMessage,
        htr, hchat, hpres]
    have hretry : handleMessageDeletion env true db newP
        ({ st with
            telegramMsgs := pmsgDelete st.telegramMsgs
              (newP.telegram_chat_id.getD "") mapping.telegram_id } : PlatState) =
        { st with
            telegramMsgs := pmsgDelete st.telegramMsgs
              (newP.telegram_chat_id.getD "") mapping.telegram_id } := by
      simp [handleMessageDeletion, hm, hup, deleteTelegramMessage,
        htr, hchat, pmsgPresent_after_delete]
    refine ⟨?_, ?_, ?_, hm, ?_⟩ <;>
      simp [hroute, hdelst, hretry, hup, Platform.other,
        MessagePayload.chatOn, MappingRow.idOn, PlatState.get,
        pmsgDelete_length _ _ _ hcount]

/-- Soft-deleted change-feed payload used by the deletion witness. -/
def delPayload : MessagePayload :=
  { updPayload with deleted_at := some "t9" }

/-- Witness for softDelete_propagates_once_and_retry_noop at concrete
inputs. -/
theorem softDelete_propagates_witness :
    (processFeedUpdate envW true updDb delPayload updPayload updSt).get
        Platform.telegram.other =
      pmsgDelete (updSt.get Platform.telegram.other) "d1" "dc5" ∧
    ((processFeedUpdate envW true updDb delPayload updPayload updSt).get
        Platform.telegram.other).length + 1 =
      (updSt.get Platform.telegram.other).length ∧
    processFeedUpdate envW true updDb delPayload updPayload
        (processFeedUpdate envW true updDb delPayload updPayload updSt) =
      processFeedUpdate envW true updDb delPayload updPayload updSt := by
  have h := softDelete_propagates_once_and_retry_noop envW updDb
    delPayload updPayload updSt
    { discord_id := "dc5", telegram_id := "n1" }
    rfl rfl (fun _ => rfl) (by decide) (by decide) (by decide)
    (by decide) (by decide)
  exact ⟨h.1, h.2.2.1, h.2.2.2.2⟩

/-- The select of a message joined with its channel (channels!inner) by
native id with .single(). -/
def lookupMessageChannel (db : Db) (id : String) :
    Option (MessageRow × ChannelRow) :=
  match listSingle (db.messages.filter fun m => m.id == id) with
  | none => none
  | some msg =>
    (db.channels.find? fun c => c.id == msg.channel_id).map fun channel =>
      (msg, channel)

/-- The isCorrectChat check of the platform edit and delete handlers:
the native chat of the event must equal the channel's chat id for that
platform. -/
def editChatMatches (channel : ChannelRow) (platform : Platform)
    (chatId : String) : Bool :=
  match platform with
  | .discord => channel.discord_chat_id == some chatId
  | .telegram => channel.telegram_chat_id == some chatId

/-- handlePlatformMessageEdit: if the edited native message is stored
and from the expected chat, overwrite its content and stamp modified_at
with the current time — without comparing the new content against the
stored one. -/
def handlePlatformMessageEdit (db : Db) (e : PlatformMessageEdit)
    (now : String) : Db :=
  match lookupMessageChannel db e.messageId with
  | none => db
  | some (_msg, channel) =>
    if !editChatMatches channel e.platform e.chatId then db
    else
      { db with messages := db.messages.map fun m =>
          if m.id == e.messageId then
            { m with content := e.newContent, modified_at := some now }
          else m }

/-- handlePlatformMessageDelete: if the deleted native message is stored
and from the expected chat, stamp deleted_at with the current time. -/
def handlePlatformMessageDelete (db : Db) (d : PlatformMessageDelete)
    (now : String) : Db :=
  match lookupMessageChannel db d.messageId with
  | none => db
  | some (_msg, channel) =>
    if !editChatMatches channel d.platform d.chatId then db
    else
      { db with messages := db.messages.map fun m =>
          if m.id == d.messageId then { m with deleted_at := some now } else m }

/-- One store-mutating handler invocation. -/
inductive DbOp where
  | ingest (m : IncomingMessage)
  | platformEdit (e : PlatformMessageEdit) (now : String)
  | platformDelete (d : PlatformMessageDelete) (now : String)

/-- Apply one handler invocation to the store. -/
def applyOp (db : Db) : DbOp → Db
  | .ingest m => (processIncomingMessage db m).2
  | .platformEdit e now => handlePlatformMessageEdit db e now
  | .platformDelete d now => handlePlatformMessageDelete db d now

/-- Apply a sequence of handler invocations to the store. -/
def applyOps (db : Db) (ops : List DbOp) : Db := ops.foldl applyOp db

/-- A message with the given id is stored and soft-deleted (its
deleted_at is set on every row carrying that id). -/
def hasDeletedMessage (db : Db) (i : String) : Prop :=
  (∃ m ∈ db.messages, m.id = i) ∧
  ∀ m ∈ db.messages, m.id = i → m.deleted_at.isSome = true

/-- upsertUser never touches the messages table. -/
theorem upsertUser_messages (db : Db) (m : IncomingMessage) :
    (upsertUser db m).db.messages = db.messages := by
  unfold upsertUser
  split
  · rfl
  · split <;> rfl
  · rfl

/-- A null insertMessage result leaves the store unchanged. -/
theorem insertMessage_none (db : Db) (m : IncomingMessage) (uid cid : String)
    (h : (insertMessage db m uid cid).message = none) :
    (insertMessage db m uid cid).db = db := by
  unfold insertMessage at h ⊢
  by_cases hc : (db.messages.any fun r => r.id == m.messageId) = true
  · rw [if_pos hc]
  · rw [if_neg hc] at h
    simp at h

/-- A successful insertMessage appends one fresh, not-deleted row under
the native message id. -/
theorem insertMessage_some (db : Db) (m : IncomingMessage) (uid cid : String)
    (row : MessageRow) (h : (insertMessage db m uid cid).message = some row) :
    (db.messages.any fun r => r.id == m.messageId) = false ∧
    row.id = m.messageId ∧ row.deleted_at = none ∧
    (insertMessage db m uid cid).db.messages = db.messages ++ [row] := by
  unfold insertMessage at h ⊢
  by_cases hc : (db.messages.any fun r => r.id == m.messageId) = true
  · rw [if_pos hc] at h
    simp at h
  · rw [if_neg hc] at h ⊢
    simp only [Option.some.injEq] at h
    subst h
    exact ⟨by simpa using hc, rfl, rfl, rfl⟩

/-- hasDeletedMessage only depends on the messages table. -/
theorem hasDeleted_of_msgs_eq {db db2 : Db} {i : String}
    (he : db2.messages = db.messages) (h : hasDeletedMessage db i) :
    hasDeletedMessage db2 i := by
  unfold hasDeletedMessage at h ⊢
  rw [he]
  exact h

/-- Appending a row with a different id preserves hasDeletedMessage. -/
theorem hasDeleted_of_append {db db2 : Db} {i : String} {row : MessageRow}
    (he : db2.messages = db.messages ++ [row]) (hne : row.id ≠ i)
    (h : hasDeletedMessage db i) : hasDeletedMessage db2 i := by
  obtain ⟨⟨w, hw, hwi⟩, hall⟩ := h
  refine ⟨⟨w, ?_, hwi⟩, ?_⟩
  · rw [he]
    exact List.mem_append_left _ hw
  · intro m hm hmi
    rw [he] at hm
    rcases List.mem_append.mp hm with hm | hm
    · exact hall m hm hmi
    · rcases List.mem_singleton.mp hm with rfl
      exact absurd hmi hne

/-- Ingestion preserves an established soft deletion: it can only append
a message under a fresh native id. -/
theorem ingest_preserves_deleted (db : Db) (m : IncomingMessage) (i : String)
    (h : hasDeletedMessage db i) :
    hasDeletedMessage (processIncomingMessage db m).2 i := by
  unfold processIncomingMessage
  cases hch : findMatchingChannel db m.platform m.chatId with
  | none => exact h
  | some channel =>
    simp only
    cases huser : (upsertUser db m).user with
    | none =>
      simp only [huser]
      exact hasDeleted_of_msgs_eq (upsertUser_messages db m) h
    | some u =>
      simp only [huser]
      cases hins : (insertMessage (upsertUser db m).db m u.id channel.id).message with
      | none =>
        simp only [hins]
        have := insertMessage_none _ _ _ _ hins
        rw [this]
        exact hasDeleted_of_msgs_eq (upsertUser_messages db m) h
      | some row =>
        simp only [hins]
        obtain ⟨hany, hrid, _hrdel, happ⟩ := insertMessage_some _ _ _ _ _ hins
        have h1 : hasDeletedMessage (upsertUser db m).db i :=
          hasDeleted_of_msgs_eq (upsertUser_messages db m) h
        refine hasDeleted_of_append (by rw [happ, upsertUser_messages]) ?_ h
        intro hri
        obtain ⟨⟨w, hw, hwi⟩, _⟩ := h1
        have : ¬ (w.id == m.messageId) = true := by
          have := List.any_eq_false.mp (by rw [upsertUser_messages] at hany; exact hany) w (by rwa [upsertUser_messages db m] at hw)
          simpa using this
        exact this (by simp [hwi, hri ▸ hrid])

/-- The per-row rewrite of the platform edit handler keeps id and
deleted_at. -/
theorem editRow_id_deleted (e : PlatformMessageEdit) (now : String)
    (w : MessageRow) :
    ((if w.id == e.messageId then
        { w with content := e.newContent, modified_at := some now }
      else w) : MessageRow).id = w.id ∧
    ((if w.id == e.messageId then
        { w with content := e.newContent, modified_at := some now }
      else w) : MessageRow).deleted_at = w.deleted_at := by
  split <;> exact ⟨rfl, rfl⟩

/-- The platform edit handler preserves an established soft deletion:
it never writes deleted_at. -/
theorem edit_preserves_deleted (db : Db) (e : PlatformMessageEdit)
    (now i : String) (h : hasDeletedMessage db i) :
    hasDeletedMessage (handlePlatformMessageEdit db e now) i := by
  unfold handlePlatformMessageEdit
  cases hl : lookupMessageChannel db e.messageId with
  | none => exact h
  | some pr =>
    obtain ⟨msg, channel⟩ := pr
    dsimp only
    by_cases hcc : editChatMatches channel e.platform e.chatId = true
    · rw [if_neg (by simp [hcc])]
      obtain ⟨⟨w, hw, hwi⟩, hall⟩ := h
      constructor
      · refine ⟨_, List.mem_map_of_mem _ hw, ?_⟩
        rw [(editRow_id_deleted e now w).1]
        exact hwi
      · intro m hm hmi
        obtain ⟨w2, hw2, rfl⟩ := List.mem_map.mp hm
        rw [(editRow_id_deleted e now w2).2]
        exact hall w2 hw2 ((editRow_id_deleted e now w2).1 ▸ hmi)
    · rw [if_pos (by simp [Bool.not_eq_true] at hcc; simp [hcc])]
      exact h

/-- The platform delete handler preserves an established soft deletion:
rows keep their id and deleted_at is only ever set, never cleared. -/
theorem delete_preserves_deleted (db : Db) (d : PlatformMessageDelete)
    (now i : String) (h : hasDeletedMessage db i) :
    hasDeletedMessage (handlePlatformMessageDelete db d now) i := by
  unfold handlePlatformMessageDelete
  cases hl : lookupMessageChannel db d.messageId with
  | none => exact h
  | some pr =>
    obtain ⟨msg, channel⟩ := pr
    dsimp only
    by_cases hcc : editChatMatches channel d.platform d.chatId = true
    · rw [if_neg (by simp [hcc])]
      obtain ⟨⟨w, hw, hwi⟩, hall⟩ := h
      constructor
      · refine ⟨_, List.mem_map_of_mem _ hw, ?_⟩
        by_cases hc : (w.id == d.messageId) = true
        · rw [if_pos hc]
          exact hwi
        · rw [if_neg hc]
          exact hwi
      · intro m hm hmi
        obtain ⟨w2, hw2, rfl⟩ := List.mem_map.mp hm
        by_cases hc : (w2.id == d.messageId) = true
        · rw [if_pos hc]
          rfl
        · rw [if_neg hc] at hmi ⊢
          exact hall w2 hw2 hmi
    · rw [if_pos (by simp [Bool.not_eq_true] at hcc; simp [hcc])]
      exact h

/-- Claim C8, counterexample: an edit event whose new content equals the
stored content still stamps modified_at — the handler updates
unconditionally, without comparing contents. -/
theorem edit_sets_modifiedAt_without_content_change :
    (handlePlatformMessageEdit
      { channels := [{ id := "c1", discord_chat_id := some "d1",
                       telegram_chat_id := some "t1", type := .twoWays }],
        users := [],
        messages := [{ id := "m1", content := "hi", user_id := "u1",
                       channel_id := "c1", modified_at := none,
                       deleted_at := none }],
        message_mappings := [] }
      { platform := .discord, messageId := "m1", newContent := "hi",
        chatId := "d1" }
      "T1").messages =
    [{ id := "m1", content := "hi", user_id := "u1", channel_id := "c1",
       modified_at := some "T1", deleted_at := none }] := by
  decide

/-- Claim C8, amended: across every sequence of handler operations a
soft deletion, once established, is never cleared; and a successfully
applied platform edit event stamps modified_at unconditionally — every
row under the edited id receives the new content and the edit
timestamp, whether or not the content changed. -/
theorem deletedAt_monotone_modifiedAt_on_edit :
    (∀ (db : Db) (i : String) (ops : List DbOp),
      hasDeletedMessage db i → hasDeletedMessage (applyOps db ops) i) ∧
    (∀ (db : Db) (e : PlatformMessageEdit) (now : String)
      (msg : MessageRow) (channel : ChannelRow),
      lookupMessageChannel db e.messageId = some (msg, channel) →
      editChatMatches channel e.platform e.chatId = true →
      ∀ m ∈ (handlePlatformMessageEdit db e now).messages,
        m.id = e.messageId → m.modified_at = some now ∧ m.content = e.newContent) := by
  constructor
  · intro db i ops h
    induction ops generalizing db with
    | nil => exact h
    | cons op rest ih =>
      refine ih _ ?_
      cases op with
      | ingest m => exact ingest_preserves_deleted db m i h
      | platformEdit e now => exact edit_preserves_deleted db e now i h
      | platformDelete d now => exact delete_preserves_deleted db d now i h
  · intro db e now msg channel hl hcc m hm hmi
    rw [handlePlatformMessageEdit, hl] at hm
    dsimp only at hm
    rw [if_neg (by simp [hcc])] at hm
    obtain ⟨w2, hw2, rfl⟩ := List.mem_map.mp hm
    by_cases hc : (w2.id == e.messageId) = true
    · simp [hc]
    · rw [if_neg (by simp_all)] at hmi ⊢
      exact absurd (show (w2.id == e.messageId) = true by simp [hmi]) hc

/-- Witness for deletedAt_monotone_modifiedAt_on_edit at concrete
inputs: a soft-deleted message survives an edit, a re-ingest and a
second delete, and an applied edit stamps modified_at. -/
theorem deletedAt_monotone_witness :
    hasDeletedMessage
      (applyOps
        { channels := [{ id := "c1", discord_chat_id := some "d1",
                         telegram_chat_id := some "t1", type := .twoWays }],
          users := [],
          messages := [{ id := "m1", content := "hi", user_id := "u1",
                         channel_id := "c1", modified_at := none,
                         deleted_at := some "T0" }],
          message_mappings := [] }
        [DbOp.platformEdit
          { platform := .discord, messageId := "m1", newContent := "yo",
            chatId := "d1" } "T2",
         DbOp.ingest
          { platform := .telegram, chatId := "t1", messageId := "m1",
            content := "again", username := "al", userId := "u1", pfp := none },
         DbOp.platformDelete
          { platform := .discord, messageId := "m1", chatId := "d1" } "T3"])
      "m1" ∧
    (∀ m ∈ (handlePlatformMessageEdit
        { channels := [{ id := "c1", discord_chat_id := some "d1",
                         telegram_chat_id := some "t1", type := .twoWays }],
          users := [],
          messages := [{ id := "m1", content := "hi", user_id := "u1",
                         channel_id := "c1", modified_at := none,
                         deleted_at := none }],
          message_mappings := [] }
        { platform := .discord, messageId := "m1", newContent := "yo",
          chatId := "d1" }
        "T4").messages,
      m.id = "m1" → m.modified_at = some "T4" ∧ m.content = "yo") := by
  constructor
  · exact deletedAt_monotone_modifiedAt_on_edit.1 _ "m1" _
      (by unfold hasDeletedMessage; decide)
  · exact deletedAt_monotone_modifiedAt_on_edit.2 _
      { platform := .discord, messageId := "m1", newContent := "yo", chatId := "d1" }
      "T4"
      { id := "m1", content := "hi", user_id := "u1", channel_id := "c1",
        modified_at := none, deleted_at := none }
      { id := "c1", discord_chat_id := some "d1", telegram_chat_id := some "t1",
        type := .twoWays }
      (by decide) (by decide)

/-- canThrow: await fn() inside try/catch, returning the pair
[data, undefined] when the promise resolves and [undefined, error] when
it rejects; a JavaScript computation that either returns or throws is
modelled as a thunk into Except. -/
def canThrow {ε α : Type} (fn : Unit → Except ε α) : Option α × Option ε :=
  match fn () with
  | .ok data => (some data, none)
  | .error e => (none, some e)

/-- canThrowSync: the synchronous variant with the same body. -/
def canThrowSync {ε α : Type} (fn : Unit → Except ε α) : Option α × Option ε :=
  match fn () with
  | .ok data => (some data, none)
  | .error e => (none, some e)

/-- Claim C10: canThrow never propagates an exception — every outcome of
fn is converted into a pair, [value, undefined] on resolution and
[undefined, error] on rejection, so at most one component is defined;
canThrowSync satisfies the same contract for synchronous fn. -/
theorem canThrow_contract {ε α : Type} :
    (∀ fn : Unit → Except ε α,
      (∃ v, fn () = .ok v ∧ canThrow fn = (some v, none)) ∨
      (∃ e, fn () = .error e ∧ canThrow fn = (none, some e))) ∧
    (∀ fn : Unit → Except ε α,
      (canThrow fn).1 = none ∨ (canThrow fn).2 = none) ∧
    (∀ fn : Unit → Except ε α,
      (∃ v, fn () = .ok v ∧ canThrowSync fn = (some v, none)) ∨
      (∃ e, fn () = .error e ∧ canThrowSync fn = (none, some e))) ∧
    (∀ fn : Unit → Except ε α,
      (canThrowSync fn).1 = none ∨ (canThrowSync fn).2 = none) := by
  refine ⟨?_, ?_, ?_, ?_⟩ <;> intro fn <;> cases h : fn () <;>
    simp [canThrow, canThrowSync, h]

end SynChat
